import Mathlib

/-!
# PopCulture-Pal: verification of the tracking / scheduling / status subsystem

Shallow embedding of the `SeriesTracker` component and its collaborators
(`geminiService.checkNewEpisodes`, the Supabase persistence gateway, the
localStorage cache, the browser notification API).  Pure helpers are
translated directly; stateful handlers become pure functions from a state
record plus explicit environment parameters (gateway outcomes, lookup
outcomes, permission-request responses) to a new state and an ordered
trace of observable events.

The few JavaScript string primitives the component uses
(`split('\n')`, `trim()`, `startsWith`, `endsWith`, `includes`,
`join('\n')`, first-occurrence `replace`) are modelled structurally over
the character list of a `String`, so that every definition evaluates by
kernel reduction on concrete inputs.  `trim` uses the ASCII whitespace
characters (space, tab, CR, LF, vertical tab, form feed); the program
only ever manipulates those.  The typed local cache abstracts the
JSON-serialised `localStorage` key/value pairs.
-/

namespace PopPal

/-! ## JavaScript string primitives, modelled over character lists -/

/-- Split a character list at every occurrence of `sep`
(JavaScript `String.prototype.split` with a one-character separator:
always returns at least one piece, empty pieces included). -/
def splitCh (sep : Char) : List Char → List (List Char)
  | [] => [[]]
  | c :: cs =>
    let r := splitCh sep cs
    if c = sep then [] :: r
    else
      match r with
      | [] => [[c]]
      | h :: t => (c :: h) :: t

/-- `text.split('\n')` as a list of lines. -/
def jsSplitLines (s : String) : List String :=
  (splitCh '\n' s.data).map String.mk

/-- The whitespace characters stripped by JavaScript `trim()` that can
occur in this program's data (ASCII whitespace). -/
def isJsSpace (c : Char) : Bool :=
  c = ' ' || c = '\t' || c = '\n' || c = '\r' || c = '\x0b' || c = '\x0c'

/-- `s.trim()`: strip leading and trailing whitespace. -/
def jsTrim (s : String) : String :=
  String.mk (((s.data.dropWhile isJsSpace).reverse.dropWhile isJsSpace).reverse)

/-- `s.startsWith(pat)`. -/
def jsStartsWith (s pat : String) : Bool :=
  pat.data.isPrefixOf s.data

/-- `s.endsWith(pat)`. -/
def jsEndsWith (s pat : String) : Bool :=
  pat.data.isSuffixOf s.data

/-- `s.includes(g)` for a single-codepoint needle `g` (all five status
glyphs are single codepoints). -/
def jsIncludesChar (s : String) (g : Char) : Bool :=
  s.data.contains g

/-- `arr.join('\n')` on the underlying character lists. -/
def joinChars : List (List Char) → List Char
  | [] => []
  | [x] => x
  | x :: xs => x ++ '\n' :: joinChars xs

/-- `arr.join('\n')` for a list of lines. -/
def joinLines (L : List String) : String :=
  String.mk (joinChars (L.map String.data))

/-- First-occurrence replacement on character lists
(JavaScript `s.replace(pat, repl)` with string arguments replaces only
the first occurrence). -/
def replaceFirstChars (pat repl : List Char) : List Char → List Char
  | [] => []
  | c :: cs =>
    if pat.isPrefixOf (c :: cs) then repl ++ (c :: cs).drop pat.length
    else c :: replaceFirstChars pat repl cs

/-- `s.replace(pat, repl)` (first occurrence only). -/
def jsReplaceFirst (s pat repl : String) : String :=
  String.mk (replaceFirstChars pat.data repl.data s.data)

/-! ## Status parser (`parseResultSections`) -/

/-- A parsed per-series section: `{ title: string; body: string }`. -/
structure StatusSection where
  title : String
  body : String
deriving DecidableEq, Repr

/-- Result of matching a trimmed line against the header regex
`/^\*\*(.+?)\*\*\s*$/`.  On a trimmed line (no leading or trailing
whitespace) the anchored regex matches iff the line is `**` ++ m ++ `**`
with `m` nonempty — that is, it starts with `**`, ends with `**` and has
at least five characters — and the full anchored match forces the lazy
capture to be exactly the middle of the line. -/
def headerTitle (t : String) : Option String :=
  if jsStartsWith t "**" && jsEndsWith t "**" && 5 ≤ t.data.length then
    some (String.mk (((t.data.drop 2).dropLast).dropLast))
  else
    none

/-- Whether a raw line is a section-header line (`line.trim().match(...)`
succeeds). -/
def isHeaderLine (l : String) : Bool :=
  (headerTitle (jsTrim l)).isSome

/-- One step of the scanning loop of `parseResultSections`: a header line
pushes a fresh section, any other line is appended to the current
section's body, and lines before the first header are dropped.  Sections
are accumulated head-first with head-first bodies (both reversed at the
end). -/
def parseStep (acc : List (String × List String)) (line : String) :
    List (String × List String) :=
  match headerTitle (jsTrim line) with
  | some t => (t, []) :: acc
  | none =>
    match acc with
    | [] => []
    | (t, body) :: rest => (t, line :: body) :: rest

/-- The scanning loop and post-processing of `parseResultSections`,
applied to an already-split list of lines: run the loop, then for each
section join its body lines with newlines and trim the result
(`s.body.join('\n').trim()`). -/
def parseSectionsLines (lines : List String) : List StatusSection :=
  ((lines.foldl parseStep []).reverse).map fun p =>
    ⟨p.1, jsTrim (joinLines p.2.reverse)⟩

/-- `parseResultSections`: split the text into lines and parse them. -/
def parseResultSections (text : String) : List StatusSection :=
  parseSectionsLines (jsSplitLines text)

/-! ## Status classification (`getStatusMeta`) -/

/-- The metadata record returned by `getStatusMeta`. -/
structure StatusMeta where
  color : String
  badge : String
  isGoodNews : Bool
deriving DecidableEq, Repr

/-- `getStatusMeta`: classify a section body by the first of five marker
glyphs it contains, in source order ✅, 🔜, 🎬, ⏳, ❌, defaulting to the
unknown row. -/
def getStatusMeta (body : String) : StatusMeta :=
  if jsIncludesChar body '✅' then ⟨"border-green-500 bg-green-50", "✅ New Episodes", true⟩
  else if jsIncludesChar body '🔜' then ⟨"border-blue-400 bg-blue-50", "🔜 New Season", true⟩
  else if jsIncludesChar body '🎬' then ⟨"border-blue-400 bg-blue-50", "🎬 In Production", true⟩
  else if jsIncludesChar body '⏳' then ⟨"border-yellow-400 bg-yellow-50", "⏳ Pending", false⟩
  else if jsIncludesChar body '❌' then ⟨"border-red-400 bg-red-50", "❌ Ended", false⟩
  else ⟨"border-gray-300 bg-white", "❓ Unknown", false⟩

/-! ## Weekly scheduler time computation (`msUntilNextSunday`)

Local civil time is modelled as a day index (weekday = `day % 7`, with
`0` = Sunday, matching `Date.prototype.getDay`) plus a millisecond
offset into the day; every day has exactly `86400000` ms (no DST in the
model). -/

/-- Milliseconds per civil day. -/
def msPerDay : ℕ := 86400000

/-- The fixed local time of day of the weekly trigger: 10:00:00.000. -/
def triggerMsOfDay : ℕ := 10 * 60 * 60 * 1000

/-- The day index chosen by `msUntilNextSunday`:
`daysUntil = day === 0 ? 7 : 7 - day`, added to the current date. -/
def nextSundayDay (day : ℕ) : ℕ :=
  let w := day % 7
  let daysUntil := if w = 0 then 7 else 7 - w
  day + daysUntil

/-- `msUntilNextSunday()`: the signed distance from now
(`day`, `ms` into the day) to the computed trigger instant
(`next.setHours(10,0,0,0)` on the chosen day). -/
def msUntilNextSunday (day ms : ℕ) : ℤ :=
  ((nextSundayDay day) * msPerDay + triggerMsOfDay : ℤ) - (day * msPerDay + ms : ℤ)

/-! ## Tracker state and event traces -/

/-- `Notification.permission`, with `unsupported` for the absent API. -/
inductive NotifPermission
  | default
  | granted
  | denied
  | unsupported
deriving DecidableEq, Repr

/-- The typed view of the three `localStorage` keys
(`popculture-pal-tracked-series`, `popculture-pal-last-check`,
`popculture-pal-notif-enabled`). -/
structure Cache where
  series : List String
  lastCheck : Option String
  notifEnabled : Bool
deriving DecidableEq, Repr

/-- `EpisodeStatusResult`: the status lookup's text plus its
`(uri, title)` sources. -/
structure EpisodeStatusResult where
  text : String
  sources : List (String × String)
deriving DecidableEq, Repr

/-- The `SeriesTracker` component state (the `useState` cells) together
with the local cache it mirrors into. -/
structure TrackerState where
  inputValue : String
  seriesList : List String
  result : Option EpisodeStatusResult
  loading : Bool
  error : Option String
  dbLoading : Bool
  syncError : Bool
  lastChecked : Option String
  notifEnabled : Bool
  notifPermission : NotifPermission
  cache : Cache
deriving DecidableEq, Repr

/-- Observable effects of a handler, in program order: local cache
writes, persistence-gateway calls (with their outcome), notification
attempts (calls to `sendBrowserNotification`), status-lookup calls, and
platform permission requests. -/
inductive Event
  | cacheSeries (l : List String)
  | cacheLastCheck (t : String)
  | cacheNotif (b : Bool)
  | gatewayCall (ok : Bool)
  | notify (title body : String)
  | lookup (names : List String)
  | permRequest
deriving DecidableEq, Repr

/-- A trace in which no persistence-gateway call happens before the
first local-cache write (scanning left to right, the first cache-write
or gateway event, if any, is a cache write). -/
def gatewayOnlyAfterCacheWrite : List Event → Bool
  | [] => true
  | Event.cacheSeries _ :: _ => true
  | Event.cacheLastCheck _ :: _ => true
  | Event.cacheNotif _ :: _ => true
  | Event.gatewayCall _ :: _ => false
  | _ :: rest => gatewayOnlyAfterCacheWrite rest

/-- Write-through consistency between the in-memory state and the local
cache: the reconciliation invariant of the spec. -/
def cacheConsistent (s : TrackerState) : Prop :=
  s.cache.series = s.seriesList ∧
  s.cache.notifEnabled = s.notifEnabled ∧
  s.cache.lastCheck = s.lastChecked

instance (s : TrackerState) : Decidable (cacheConsistent s) := by
  unfold cacheConsistent; infer_instance

/-! ## The external status lookup (`geminiService.checkNewEpisodes`) -/

/-- `checkNewEpisodes` of `geminiService.ts`: guards (missing API key,
empty series list) then the provider call, whose outcome is passed in as
`provider` (`none` = the request rejected). -/
def checkNewEpisodes (hasApiKey : Bool) (seriesList : List String)
    (provider : Option EpisodeStatusResult) : Except String EpisodeStatusResult :=
  if !hasApiKey then Except.error "API Key is missing."
  else if seriesList = [] then Except.error "No series to check."
  else
    match provider with
    | some r => Except.ok r
    | none => Except.error "Failed to check episode status. Please try again."

/-! ## Handlers of the `SeriesTracker` component

Each handler takes the current state plus explicit parameters for the
outcomes of its awaited external calls and returns the new state and its
event trace.  A gateway outcome `gwOk = false` models a rejected
persistence-gateway promise (caught and swallowed by the handler). -/

/-- `handleAdd`: trim the input; reject empty or already-present names;
otherwise append, write the cache, clear the input, then attempt the
gateway insert (failure swallowed). -/
def handleAdd (s : TrackerState) (gwOk : Bool) : TrackerState × List Event :=
  let trimmed := jsTrim s.inputValue
  if trimmed = "" ∨ s.seriesList.contains trimmed then (s, [])
  else
    let next := s.seriesList ++ [trimmed]
    ({ s with seriesList := next, inputValue := "",
              cache := { s.cache with series := next } },
     [Event.cacheSeries next, Event.gatewayCall gwOk])

/-- `handleRemove`: filter the name out, write the cache, then attempt
the gateway delete (failure swallowed). -/
def handleRemove (s : TrackerState) (name : String) (gwOk : Bool) :
    TrackerState × List Event :=
  let next := s.seriesList.filter (fun x => x ≠ name)
  ({ s with seriesList := next, cache := { s.cache with series := next } },
   [Event.cacheSeries next, Event.gatewayCall gwOk])

/-- `handleCheck` (the manual check): no-op on an empty list; otherwise
clear result and error, call the lookup; on success record the
timestamp locally then best-effort remotely; on failure set the inline
error message. -/
def handleCheck (s : TrackerState) (lookupRes : Option EpisodeStatusResult)
    (now : String) (gwOk : Bool) : TrackerState × List Event :=
  if s.seriesList = [] then (s, [])
  else
    match lookupRes with
    | none =>
      ({ s with loading := false, result := none,
                error := some "Failed to check episode status. Please try again." },
       [Event.lookup s.seriesList])
    | some data =>
      ({ s with loading := false, result := some data, error := none,
                lastChecked := some now,
                cache := { s.cache with lastCheck := some now } },
       [Event.lookup s.seriesList, Event.cacheLastCheck now, Event.gatewayCall gwOk])

/-- The `Status:` line of a section body used for the per-series
notification: the first body line starting with `Status:`, else the
badge (`s.body.split('\n').find(l => l.startsWith('Status:')) || meta.badge`). -/
def statusLineOf (sec : StatusSection) : String :=
  match (jsSplitLines sec.body).find? (fun l => jsStartsWith l "Status:") with
  | some l => l
  | none => (getStatusMeta sec.body).badge

/-- `runAutoCheck` (the scheduled check): no-op on an empty captured
list; on lookup success record the timestamp (locally then best-effort
remotely), parse and classify, and attempt a summary notification plus
one per good-news section (or a no-news summary); on lookup failure
attempt a single failure notification and change nothing. -/
def runAutoCheck (s : TrackerState) (list : List String)
    (lookupRes : Option EpisodeStatusResult) (now : String) (gwOk : Bool) :
    TrackerState × List Event :=
  if list = [] then (s, [])
  else
    match lookupRes with
    | none =>
      (s, [Event.lookup list,
           Event.notify "📺 PopCulture Pal" "Weekly check failed. Open the app to retry."])
    | some data =>
      let sections := parseResultSections data.text
      let goodNews := sections.filter fun sec => (getStatusMeta sec.body).isGoodNews
      let notifs :=
        if goodNews = [] then
          [Event.notify "📺 PopCulture Pal – Weekly Update"
            "No new episodes or seasons this week."]
        else
          Event.notify "📺 PopCulture Pal – Weekly Update"
            (toString goodNews.length ++ " series have news: " ++
              String.intercalate ", " (goodNews.map StatusSection.title))
          :: goodNews.map fun sec =>
               Event.notify sec.title (jsTrim (jsReplaceFirst (statusLineOf sec) "Status:" ""))
      ({ s with result := some data, lastChecked := some now,
                cache := { s.cache with lastCheck := some now } },
       [Event.lookup list, Event.cacheLastCheck now, Event.gatewayCall gwOk] ++ notifs)

/-- `handleToggleNotifications`: no-op when unsupported; when enabling
without a granted permission, issue a platform permission request and
abort unless it returns granted; otherwise flip the flag, write the
cache, then best-effort-sync the gateway. -/
def handleToggleNotifications (s : TrackerState) (resp : NotifPermission)
    (gwOk : Bool) : TrackerState × List Event :=
  if s.notifPermission = NotifPermission.unsupported then (s, [])
  else
    let next := !s.notifEnabled
    if next = true ∧ s.notifPermission ≠ NotifPermission.granted then
      let s1 := { s with notifPermission := resp }
      if resp ≠ NotifPermission.granted then (s1, [Event.permRequest])
      else
        ({ s1 with notifEnabled := next, cache := { s1.cache with notifEnabled := next } },
         [Event.permRequest, Event.cacheNotif next, Event.gatewayCall gwOk])
    else
      ({ s with notifEnabled := next, cache := { s.cache with notifEnabled := next } },
       [Event.cacheNotif next, Event.gatewayCall gwOk])

/-- The toggle operation as the user can actually activate it: the
toggle button carries
`disabled={notifPermission === 'unsupported' || notifPermission === 'denied'}`,
so activation in those states is a no-op and otherwise runs
`handleToggleNotifications`. -/
def toggleViaButton (s : TrackerState) (resp : NotifPermission) (gwOk : Bool) :
    TrackerState × List Event :=
  if s.notifPermission = NotifPermission.unsupported ∨
     s.notifPermission = NotifPermission.denied then (s, [])
  else handleToggleNotifications s resp gwOk

/-! ## Initial load -/

/-- A `tracker_settings` row as fetched from the gateway. -/
structure SettingsRow where
  notif_enabled : Bool
  last_checked_at : Option String
deriving DecidableEq, Repr

/-- The component's initial state: the `useState` initializers read the
series list, last-check timestamp and notification flag from the local
cache; `dbLoading` starts true and `syncError` false. -/
def initialState (cache : Cache) (perm : NotifPermission) : TrackerState :=
  { inputValue := ""
    seriesList := cache.series
    result := none
    loading := false
    error := none
    dbLoading := true
    syncError := false
    lastChecked := cache.lastCheck
    notifEnabled := cache.notifEnabled
    notifPermission := perm
    cache := cache }

/-- The initial-load effect: when the gateway is unconfigured, only
clear `dbLoading`; when configured, `fetched` is the joined outcome of
`fetchSeries` and `fetchSettings` (`none` = either fetch rejected, which
sets the sync-error flag and keeps the cache-derived state).  The
returned `Bool` records whether any remote call was made. -/
def initialLoad (cache : Cache) (perm : NotifPermission) (configured : Bool)
    (fetched : Option (List String × Option SettingsRow)) : TrackerState × Bool :=
  let s0 := initialState cache perm
  if configured = false then ({ s0 with dbLoading := false }, false)
  else
    match fetched with
    | none => ({ s0 with syncError := true, dbLoading := false }, true)
    | some (cloud, settings) =>
      let s1 := { s0 with seriesList := cloud,
                          cache := { s0.cache with series := cloud } }
      let s2 :=
        match settings with
        | none => s1
        | some st =>
          let s1a := { s1 with notifEnabled := st.notif_enabled,
                               cache := { s1.cache with notifEnabled := st.notif_enabled } }
          match st.last_checked_at with
          | none => s1a
          | some ts =>
            { s1a with lastChecked := some ts,
                       cache := { s1a.cache with lastCheck := some ts } }
      ({ s2 with dbLoading := false }, true)

/-- The "offline mode" indicator rendered by the component
(`!dbLoading && !isSupabaseAvailable`). -/
def offlineFlag (configured : Bool) (s : TrackerState) : Bool :=
  !s.dbLoading && !configured

/-! ## Auxiliary definitions for the statements below -/

/-- Whether an event is a notification attempt. -/
def isNotifyEvent : Event → Bool
  | Event.notify _ _ => true
  | _ => false

/-- A sample state with one tracked series, cache-consistent, permission
still `default`. -/
def sampleState : TrackerState :=
  initialState ⟨["A"], none, false⟩ NotifPermission.default

/-- The sample state with a pending (untrimmed, fresh) input value. -/
def sampleStateWithInput : TrackerState :=
  { sampleState with inputValue := " B " }

/-- A sample state whose notification permission is `denied`. -/
def sampleStateDenied : TrackerState :=
  { sampleState with notifPermission := NotifPermission.denied }

end PopPal

namespace PopPal

/-! ## Parser structure lemmas -/

/-- A line that is not a header line fails the header match. -/
theorem headerTitle_of_not_header {l : String} (h : isHeaderLine l = false) :
    headerTitle (jsTrim l) = none := by
  cases hopt : headerTitle (jsTrim l) with
  | none => rfl
  | some t => rw [isHeaderLine, hopt] at h; simp at h

/-- Header-free lines before the first header leave the scanning
accumulator empty: the prologue is discarded. -/
theorem foldl_parseStep_prologue (p : List String)
    (hp : ∀ l ∈ p, isHeaderLine l = false) :
    p.foldl parseStep [] = [] := by
  induction p with
  | nil => rfl
  | cons l ls ih =>
    simp only [List.foldl_cons, parseStep,
      headerTitle_of_not_header (hp l (List.mem_cons_self l ls))]
    exact ih fun x hx => hp x (List.mem_cons_of_mem l hx)

/-- Header-free lines are accumulated, in order, into the body of the
current (topmost) section. -/
theorem foldl_parseStep_body (b : List String) (t : String)
    (rb : List String) (acc : List (String × List String))
    (hb : ∀ l ∈ b, isHeaderLine l = false) :
    b.foldl parseStep ((t, rb) :: acc) = (t, b.reverse ++ rb) :: acc := by
  induction b generalizing rb with
  | nil => simp
  | cons l ls ih =>
    simp only [List.foldl_cons, parseStep,
      headerTitle_of_not_header (hb l (List.mem_cons_self l ls))]
    rw [ih (l :: rb) fun x hx => hb x (List.mem_cons_of_mem l hx)]
    simp

/-- Scanning a sequence of blocks — each a header line followed by
header-free body lines — yields one accumulator entry per block, in
reverse order with reversed bodies. -/
theorem foldl_parseStep_blocks (blocks : List (String × String × List String))
    (acc : List (String × List String))
    (hb : ∀ bl ∈ blocks, headerTitle (jsTrim bl.1) = some bl.2.1 ∧
          ∀ l ∈ bl.2.2, isHeaderLine l = false) :
    (blocks.flatMap fun bl => bl.1 :: bl.2.2).foldl parseStep acc =
      ((blocks.map fun bl => (bl.2.1, bl.2.2.reverse)).reverse) ++ acc := by
  induction blocks generalizing acc with
  | nil => simp
  | cons bl rest ih =>
    obtain ⟨hhead, hbody⟩ := hb bl (List.mem_cons_self bl rest)
    simp only [List.flatMap_cons, List.cons_append, List.foldl_append,
      List.foldl_cons, parseStep, hhead]
    rw [foldl_parseStep_body bl.2.2 bl.2.1 [] acc hbody]
    rw [ih ((bl.2.1, bl.2.2.reverse ++ []) :: acc)
      (fun x hx => hb x (List.mem_cons_of_mem bl hx))]
    simp

/-- Splitting a separator-free character list is the identity. -/
theorem splitCh_no_sep (sep : Char) (cs : List Char) (h : sep ∉ cs) :
    splitCh sep cs = [cs] := by
  induction cs with
  | nil => rfl
  | cons c cs ih =>
    have hc : ¬ c = sep := fun hh => h (hh ▸ List.mem_cons_self c cs)
    rw [splitCh, ih fun hh => h (List.mem_cons_of_mem c hh)]
    simp [hc]

/-- Splitting peels off a leading separator-free piece. -/
theorem splitCh_append_sep (sep : Char) (x cs : List Char) (hx : sep ∉ x) :
    splitCh sep (x ++ sep :: cs) = x :: splitCh sep cs := by
  induction x with
  | nil => simp [splitCh]
  | cons c x' ih =>
    have hc : ¬ c = sep := fun hh => hx (hh ▸ List.mem_cons_self c x')
    rw [List.cons_append, splitCh, ih fun hh => hx (List.mem_cons_of_mem c hh)]
    simp [hc]

/-- Splitting on newline inverts joining newline-free pieces. -/
theorem splitCh_joinChars (ll : List (List Char)) (hne : ll ≠ [])
    (h : ∀ x ∈ ll, '\n' ∉ x) :
    splitCh '\n' (joinChars ll) = ll := by
  induction ll with
  | nil => exact absurd rfl hne
  | cons x rest ih =>
    cases rest with
    | nil => exact splitCh_no_sep '\n' x (h x (List.mem_cons_self x []))
    | cons y rest' =>
      have hj : joinChars (x :: y :: rest') = x ++ '\n' :: joinChars (y :: rest') := rfl
      rw [hj, splitCh_append_sep '\n' x _ (h x (List.mem_cons_self x _))]
      rw [ih (List.cons_ne_nil y rest') fun z hz => h z (List.mem_cons_of_mem x hz)]

/-- `split('\n')` inverts `join('\n')` on a nonempty list of
newline-free lines. -/
theorem jsSplitLines_joinLines (L : List String) (hne : L ≠ [])
    (h : ∀ l ∈ L, '\n' ∉ l.data) :
    jsSplitLines (joinLines L) = L := by
  rw [jsSplitLines, joinLines]
  rw [splitCh_joinChars (L.map String.data) (by simpa using hne)
    (by intro x hx; rcases List.mem_map.mp hx with ⟨l, hl, rfl⟩; exact h l hl)]
  simp [Function.comp_def, show ∀ s : String, String.mk s.data = s from fun _ => rfl]

/-! ## Claim theorems -/

/-- C1: every mutation (add, remove, toggle the notification flag,
record a check timestamp — the latter in both the manual and the
scheduled check) leaves the in-memory state and the local cache
write-through consistent when it returns, performs its local cache
write before any persistence-gateway call in its trace, and a gateway
failure is swallowed: the returned local state is identical whether the
gateway call succeeds or fails. -/
theorem mutation_writethrough (s : TrackerState) (name now : String)
    (list : List String) (resp : NotifPermission)
    (lookupRes : Option EpisodeStatusResult) (gwOk : Bool)
    (hc : cacheConsistent s) :
    (cacheConsistent (handleAdd s gwOk).1 ∧
      (handleAdd s gwOk).1 = (handleAdd s true).1 ∧
      gatewayOnlyAfterCacheWrite (handleAdd s gwOk).2 = true) ∧
    (cacheConsistent (handleRemove s name gwOk).1 ∧
      (handleRemove s name gwOk).1 = (handleRemove s name true).1 ∧
      gatewayOnlyAfterCacheWrite (handleRemove s name gwOk).2 = true) ∧
    (cacheConsistent (handleToggleNotifications s resp gwOk).1 ∧
      (handleToggleNotifications s resp gwOk).1 =
        (handleToggleNotifications s resp true).1 ∧
      gatewayOnlyAfterCacheWrite (handleToggleNotifications s resp gwOk).2 = true) ∧
    (cacheConsistent (handleCheck s lookupRes now gwOk).1 ∧
      (handleCheck s lookupRes now gwOk).1 = (handleCheck s lookupRes now true).1 ∧
      gatewayOnlyAfterCacheWrite (handleCheck s lookupRes now gwOk).2 = true) ∧
    (cacheConsistent (runAutoCheck s list lookupRes now gwOk).1 ∧
      (runAutoCheck s list lookupRes now gwOk).1 =
        (runAutoCheck s list lookupRes now true).1 ∧
      gatewayOnlyAfterCacheWrite (runAutoCheck s list lookupRes now gwOk).2 = true) := by
  obtain ⟨hc1, hc2, hc3⟩ := hc
  refine ⟨?_, ?_, ?_, ?_, ?_⟩
  · by_cases hadd : jsTrim s.inputValue = "" ∨ jsTrim s.inputValue ∈ s.seriesList <;>
      simp [handleAdd, hadd, cacheConsistent, gatewayOnlyAfterCacheWrite, hc1, hc2, hc3]
  · simp [handleRemove, cacheConsistent, gatewayOnlyAfterCacheWrite, hc1, hc2, hc3]
  · cases hperm : s.notifPermission <;> cases hen : s.notifEnabled <;>
      by_cases hresp : resp = NotifPermission.granted <;>
        simp [handleToggleNotifications, hperm, hen, hresp,
          cacheConsistent, gatewayOnlyAfterCacheWrite, hc1, hc2, hc3]
  · by_cases hs : s.seriesList = [] <;> cases lookupRes <;>
      simp [handleCheck, hs, cacheConsistent, gatewayOnlyAfterCacheWrite, hc1, hc2, hc3]
  · by_cases hl : list = [] <;> cases lookupRes <;>
      simp [runAutoCheck, hl, cacheConsistent, gatewayOnlyAfterCacheWrite, hc1, hc2, hc3]

/-- C1 witness: the add-mutation clause at a concrete consistent state
with a failing gateway. -/
theorem mutation_writethrough_witness :
    cacheConsistent (handleAdd sampleStateWithInput false).1 ∧
    (handleAdd sampleStateWithInput false).1 = (handleAdd sampleStateWithInput true).1 ∧
    gatewayOnlyAfterCacheWrite (handleAdd sampleStateWithInput false).2 = true :=
  (mutation_writethrough sampleStateWithInput "A" "t" ["A"]
    NotifPermission.default none false (by decide)).1

/-- C2 counterexample: on the input `"**A**\n\nx"` the section body
produced by the parser is `"x"`, not the verbatim concatenation
`"\nx"` of the lines between the header and the end of input — the
trailing `.trim()` strips the leading blank line, so the claimed
character-for-character equality fails. -/
theorem parser_body_not_verbatim :
    parseResultSections "**A**\n\nx" = [⟨"A", "x"⟩] ∧
    (parseResultSections "**A**\n\nx").map StatusSection.body ≠ [joinLines ["", "x"]] := by
  constructor
  · decide
  · decide

/-- C2 (amended): for text made of a header-free prologue followed by N
blocks — each a well-formed header line (trimming to `**title**`)
followed by header-free lines — the parser returns exactly N sections,
the k-th titled by the unwrapped k-th header, whose body is the
whitespace-TRIMMED newline-join of the lines between that header and
the next (or end of input), interior blank lines preserved; lines
before the first header are discarded, and empty input yields the empty
sequence. -/
theorem parser_sections_trimmed
    (p : List String) (blocks : List (String × String × List String))
    (hp : ∀ l ∈ p, isHeaderLine l = false)
    (hb : ∀ bl ∈ blocks, headerTitle (jsTrim bl.1) = some bl.2.1 ∧
          ∀ l ∈ bl.2.2, isHeaderLine l = false)
    (hnl : ∀ l ∈ p ++ blocks.flatMap (fun bl => bl.1 :: bl.2.2), '\n' ∉ l.data)
    (hne : p ++ blocks.flatMap (fun bl => bl.1 :: bl.2.2) ≠ []) :
    parseResultSections (joinLines (p ++ blocks.flatMap fun bl => bl.1 :: bl.2.2)) =
      blocks.map (fun bl => ⟨bl.2.1, jsTrim (joinLines bl.2.2)⟩) ∧
    parseResultSections "" = [] := by
  constructor
  · rw [parseResultSections, jsSplitLines_joinLines _ hne hnl]
    rw [parseSectionsLines, List.foldl_append, foldl_parseStep_prologue p hp,
        foldl_parseStep_blocks blocks [] hb]
    simp [List.map_map, Function.comp_def]
  · decide

/-- C2 witness: a prologue line plus one block with an interior blank
line, parsed into the single expected section. -/
theorem parser_sections_trimmed_witness :
    parseResultSections (joinLines (["intro"] ++
      ([("**Severance**", "Severance", ["Status: ok", "", "more"])].flatMap
        fun bl => bl.1 :: bl.2.2))) =
      [("**Severance**", "Severance", ["Status: ok", "", "more"])].map
        (fun bl => (⟨bl.2.1, jsTrim (joinLines bl.2.2)⟩ : StatusSection)) :=
  (parser_sections_trimmed ["intro"]
    [("**Severance**", "Severance", ["Status: ok", "", "more"])]
    (by decide) (by decide) (by decide) (by decide)).1

/-- C3: for every current local time, the computed weekly trigger is
strictly in the future, lands on a Sunday (weekday 0) at the fixed
10:00 local time of day, and when today is already Sunday the chosen
day is exactly one week ahead, never later the same day. -/
theorem weekly_trigger_future (day ms : ℕ) (hms : ms < msPerDay) :
    0 < msUntilNextSunday day ms ∧
    nextSundayDay day % 7 = 0 ∧
    day < nextSundayDay day ∧
    triggerMsOfDay = 10 * 60 * 60 * 1000 ∧
    (day % 7 = 0 → nextSundayDay day = day + 7) := by
  unfold msUntilNextSunday nextSundayDay msPerDay triggerMsOfDay at *
  refine ⟨?_, ?_, ?_, rfl, ?_⟩ <;> simp only [] <;> split_ifs <;> omega

/-- C3 witness: the trigger computation at a concrete Wednesday
(day 3) early-morning instant. -/
theorem weekly_trigger_future_witness :
    0 < msUntilNextSunday 3 5000 ∧
    nextSundayDay 3 % 7 = 0 ∧
    3 < nextSundayDay 3 ∧
    triggerMsOfDay = 10 * 60 * 60 * 1000 ∧
    (3 % 7 = 0 → nextSundayDay 3 = 3 + 7) :=
  weekly_trigger_future 3 5000 (by decide)

/-- C4: the toggle operation as activatable through the (conditionally
disabled) UI button issues a platform permission request only when the
current permission is `default`; in particular with permission `denied`
an activation is a complete no-op: no request, `notifEnabled`
unchanged, no events at all. -/
theorem permission_request_only_from_default (s : TrackerState)
    (resp : NotifPermission) (gwOk : Bool) :
    (Event.permRequest ∈ (toggleViaButton s resp gwOk).2 →
      s.notifPermission = NotifPermission.default) ∧
    (s.notifPermission = NotifPermission.denied →
      toggleViaButton s resp gwOk = (s, [])) := by
  cases hperm : s.notifPermission <;>
    cases hen : s.notifEnabled <;>
      by_cases hresp : resp = NotifPermission.granted <;>
        simp [toggleViaButton, handleToggleNotifications, hperm, hen, hresp]

/-- C4 witness: activating the toggle in a concrete denied-permission
state changes nothing and issues nothing. -/
theorem permission_request_only_from_default_witness :
    toggleViaButton sampleStateDenied NotifPermission.granted true =
      (sampleStateDenied, []) :=
  (permission_request_only_from_default sampleStateDenied
    NotifPermission.granted true).2 rfl

/-- C5: adding a (trimmed) name that is nonempty and not already
present appends it at the end — previously present names keep their
order and the new name occurs exactly once — while an empty or
duplicate (exact-match) name leaves the state unchanged. -/
theorem add_valid_appends (s : TrackerState) (gwOk : Bool) :
    (jsTrim s.inputValue ≠ "" → jsTrim s.inputValue ∉ s.seriesList →
      (handleAdd s gwOk).1.seriesList = s.seriesList ++ [jsTrim s.inputValue] ∧
      (handleAdd s gwOk).1.seriesList.count (jsTrim s.inputValue) = 1) ∧
    ((jsTrim s.inputValue = "" ∨ jsTrim s.inputValue ∈ s.seriesList) →
      (handleAdd s gwOk).1 = s) := by
  constructor
  · intro hne hnm
    simp [handleAdd, hne, hnm, List.count_append,
      List.count_eq_zero_of_not_mem hnm]
  · rintro (h | h) <;> simp [handleAdd, h]

/-- C5 witness: adding the fresh name `" B "` (trimming to `"B"`) to
the concrete one-element list. -/
theorem add_valid_appends_witness :
    (handleAdd sampleStateWithInput true).1.seriesList =
      sampleStateWithInput.seriesList ++ [jsTrim sampleStateWithInput.inputValue] ∧
    (handleAdd sampleStateWithInput true).1.seriesList.count
      (jsTrim sampleStateWithInput.inputValue) = 1 :=
  (add_valid_appends sampleStateWithInput true).1 (by decide) (by decide)

/-- C6: classification checks the five glyphs in the fixed priority
order ✅ > 🔜 > 🎬 > ⏳ > ❌ and returns the first present — each badge is
produced exactly when its glyph is present and all higher-priority
glyphs are absent — a body with both ✅ and ❌ classifies as ✅, and a
body with none of the five classifies as unknown. -/
theorem classification_priority (body : String) :
    ((getStatusMeta body).badge = "✅ New Episodes" ↔ jsIncludesChar body '✅' = true) ∧
    ((getStatusMeta body).badge = "🔜 New Season" ↔
      (jsIncludesChar body '✅' = false ∧ jsIncludesChar body '🔜' = true)) ∧
    ((getStatusMeta body).badge = "🎬 In Production" ↔
      (jsIncludesChar body '✅' = false ∧ jsIncludesChar body '🔜' = false ∧
       jsIncludesChar body '🎬' = true)) ∧
    ((getStatusMeta body).badge = "⏳ Pending" ↔
      (jsIncludesChar body '✅' = false ∧ jsIncludesChar body '🔜' = false ∧
       jsIncludesChar body '🎬' = false ∧ jsIncludesChar body '⏳' = true)) ∧
    ((getStatusMeta body).badge = "❌ Ended" ↔
      (jsIncludesChar body '✅' = false ∧ jsIncludesChar body '🔜' = false ∧
       jsIncludesChar body '🎬' = false ∧ jsIncludesChar body '⏳' = false ∧
       jsIncludesChar body '❌' = true)) ∧
    ((getStatusMeta body).badge = "❓ Unknown" ↔
      (jsIncludesChar body '✅' = false ∧ jsIncludesChar body '🔜' = false ∧
       jsIncludesChar body '🎬' = false ∧ jsIncludesChar body '⏳' = false ∧
       jsIncludesChar body '❌' = false)) ∧
    (jsIncludesChar body '✅' = true → jsIncludesChar body '❌' = true →
      (getStatusMeta body).badge = "✅ New Episodes") := by
  cases h1 : jsIncludesChar body '✅' <;>
    cases h2 : jsIncludesChar body '🔜' <;>
      cases h3 : jsIncludesChar body '🎬' <;>
        cases h4 : jsIncludesChar body '⏳' <;>
          cases h5 : jsIncludesChar body '❌' <;>
            simp [getStatusMeta, h1, h2, h3, h4, h5]

/-- C6 witness: a concrete body containing both the available-now and
the ended glyph classifies as available-now. -/
theorem classification_priority_witness :
    (getStatusMeta "a ✅ b ❌ c").badge = "✅ New Episodes" :=
  (classification_priority "a ✅ b ❌ c").2.2.2.2.2.2 (by decide) (by decide)

/-- C7: with the gateway unconfigured, `load()` makes no remote call
(second component `false`), returns the cache-derived state unchanged
apart from clearing the loading indicator, raises the offline-mode
flag and no sync error; with the gateway configured but the fetch
failing, it sets the sync-error flag and returns the cache-derived
state (list, settings and cache untouched). -/
theorem load_offline_and_sync_error (cache : Cache) (perm : NotifPermission)
    (fetched : Option (List String × Option SettingsRow)) :
    (initialLoad cache perm false fetched =
        ({ initialState cache perm with dbLoading := false }, false) ∧
      offlineFlag false (initialLoad cache perm false fetched).1 = true ∧
      (initialLoad cache perm false fetched).1.seriesList = cache.series ∧
      (initialLoad cache perm false fetched).1.lastChecked = cache.lastCheck ∧
      (initialLoad cache perm false fetched).1.notifEnabled = cache.notifEnabled ∧
      (initialLoad cache perm false fetched).1.cache = cache ∧
      (initialLoad cache perm false fetched).1.syncError = false) ∧
    ((initialLoad cache perm true none).1 =
        { initialState cache perm with syncError := true, dbLoading := false } ∧
      (initialLoad cache perm true none).1.seriesList = cache.series ∧
      (initialLoad cache perm true none).1.cache = cache ∧
      (initialLoad cache perm true none).1.syncError = true) := by
  simp [initialLoad, initialState, offlineFlag]

/-- C8: when the lookup fails during the scheduled check, the state is
unchanged (so `lastCheckedAt` is not updated and no UI error appears)
and the trace contains exactly one notification attempt, the advisory
failure notification; when the lookup fails during the manual check,
the inline error is set, `lastCheckedAt` and its cache mirror are
unchanged, and no notification is attempted. -/
theorem lookup_failure_handling (s : TrackerState) (list : List String)
    (now : String) (gwOk : Bool) (hlist : list ≠ []) (hs : s.seriesList ≠ []) :
    ((runAutoCheck s list none now gwOk).1 = s ∧
      (runAutoCheck s list none now gwOk).2.filter isNotifyEvent =
        [Event.notify "📺 PopCulture Pal" "Weekly check failed. Open the app to retry."]) ∧
    ((handleCheck s none now gwOk).1.error =
        some "Failed to check episode status. Please try again." ∧
      (handleCheck s none now gwOk).1.lastChecked = s.lastChecked ∧
      (handleCheck s none now gwOk).1.cache.lastCheck = s.cache.lastCheck ∧
      (handleCheck s none now gwOk).2.filter isNotifyEvent = []) := by
  simp [runAutoCheck, handleCheck, hlist, hs, isNotifyEvent, List.filter]

/-- C8 witness: failure handling at a concrete nonempty-list state. -/
theorem lookup_failure_handling_witness :
    ((runAutoCheck sampleState ["A"] none "t" true).1 = sampleState ∧
      (runAutoCheck sampleState ["A"] none "t" true).2.filter isNotifyEvent =
        [Event.notify "📺 PopCulture Pal" "Weekly check failed. Open the app to retry."]) ∧
    ((handleCheck sampleState none "t" true).1.error =
        some "Failed to check episode status. Please try again." ∧
      (handleCheck sampleState none "t" true).1.lastChecked = sampleState.lastChecked ∧
      (handleCheck sampleState none "t" true).1.cache.lastCheck =
        sampleState.cache.lastCheck ∧
      (handleCheck sampleState none "t" true).2.filter isNotifyEvent = []) :=
  lookup_failure_handling sampleState ["A"] "t" true (by decide) (by decide)

/-- C9: with an empty tracked list both check operations return with no
events and no state change; every lookup call either operation ever
issues carries a nonempty names list; and the lookup client's
empty-list error branch is therefore unreachable from these callers —
`checkNewEpisodes` never returns that error on a nonempty list. -/
theorem empty_list_guard (s : TrackerState) (list : List String)
    (lookupRes : Option EpisodeStatusResult) (now : String) (gwOk : Bool) :
    (s.seriesList = [] → handleCheck s lookupRes now gwOk = (s, [])) ∧
    (list = [] → runAutoCheck s list lookupRes now gwOk = (s, [])) ∧
    (∀ names, Event.lookup names ∈ (handleCheck s lookupRes now gwOk).2 → names ≠ []) ∧
    (∀ names, Event.lookup names ∈ (runAutoCheck s list lookupRes now gwOk).2 → names ≠ []) ∧
    (∀ (hasKey : Bool) (names : List String) (provider : Option EpisodeStatusResult),
      names ≠ [] →
      checkNewEpisodes hasKey names provider ≠ Except.error "No series to check.") := by
  refine ⟨?_, ?_, ?_, ?_, ?_⟩
  · intro h; simp [handleCheck, h]
  · intro h; simp [runAutoCheck, h]
  · intro names hmem
    by_cases h : s.seriesList = []
    · simp [handleCheck, h] at hmem
    · cases lookupRes <;> simp [handleCheck, h] at hmem <;>
        (intro hne; exact absurd (hmem ▸ h) (by simp [hne]))
  · intro names hmem
    by_cases h : list = []
    · simp [runAutoCheck, h] at hmem
    · cases lookupRes with
      | none =>
        simp [runAutoCheck, h] at hmem
        intro hne; exact absurd (hmem ▸ h) (by simp [hne])
      | some data =>
        simp only [runAutoCheck, if_neg h] at hmem
        rcases List.mem_append.mp hmem with h1 | h1
        · simp only [List.mem_cons, List.not_mem_nil, or_false] at h1
          rcases h1 with h1 | h1 | h1
          · rw [Event.lookup.injEq] at h1; subst h1; exact h
          · exact absurd h1 (by simp)
          · exact absurd h1 (by simp)
        · split at h1 <;> simp at h1
  · intro hasKey names provider hne
    cases hasKey <;> cases provider <;> simp [checkNewEpisodes, hne]

/-- C9 witness: the empty-list no-op and the guarded lookup client at
concrete inputs. -/
theorem empty_list_guard_witness :
    handleCheck { sampleState with seriesList := [] } none "t" true =
      ({ sampleState with seriesList := [] }, []) ∧
    checkNewEpisodes true ["A"] none ≠ Except.error "No series to check." :=
  ⟨(empty_list_guard { sampleState with seriesList := [] } [] none "t" true).1 rfl,
   (empty_list_guard sampleState [] none "t" true).2.2.2.2 true ["A"] none (by decide)⟩

/-- C10: neither check operation, manual or scheduled, successful or
failed, modifies the tracked series list or the notification-enabled
flag, in memory or in the local cache — of the persisted state only the
last-check timestamp (and the derived result) may change. -/
theorem check_frame (s : TrackerState) (list : List String)
    (lookupRes : Option EpisodeStatusResult) (now : String) (gwOk : Bool) :
    ((handleCheck s lookupRes now gwOk).1.seriesList = s.seriesList ∧
      (handleCheck s lookupRes now gwOk).1.notifEnabled = s.notifEnabled ∧
      (handleCheck s lookupRes now gwOk).1.cache.series = s.cache.series ∧
      (handleCheck s lookupRes now gwOk).1.cache.notifEnabled = s.cache.notifEnabled) ∧
    ((runAutoCheck s list lookupRes now gwOk).1.seriesList = s.seriesList ∧
      (runAutoCheck s list lookupRes now gwOk).1.notifEnabled = s.notifEnabled ∧
      (runAutoCheck s list lookupRes now gwOk).1.cache.series = s.cache.series ∧
      (runAutoCheck s list lookupRes now gwOk).1.cache.notifEnabled = s.cache.notifEnabled) := by
  by_cases hs : s.seriesList = [] <;> by_cases hl : list = [] <;>
    cases lookupRes <;> simp [handleCheck, runAutoCheck, hs, hl]

end PopPal
